import Mathlib

/-!
# Verification of the hyper-agent-session-sidebar classification core

Shallow embedding of the terminal-output classification engine of the
`hyper-agent-session-sidebar` plugin:

* the priority-scored CWD pattern extractor (`extractCwd`, `processCwdBuffer`
  from `src/index.js`),
* the output-type and activity classifier (`detectOutputType`,
  `parseTerminalOutput` from `src/index.js`),
* the Claude Code assistant state machine (`detectClaudeState`,
  `updateClaudeDetection` from `src/claude-detection.js`),
* the decay sweeper (`clearOldActivity` from `src/index.js`).

Modelling conventions:

* JS numbers holding timestamps are modelled as `Int`; `activityIntensity`
  (which is multiplied by fractional constants) is modelled as `ℚ`;
  `outputBurstCount` (always a non-negative integer in the code) as `ℕ`.
* `null`/`undefined` fields are modelled as `Option`.  JS truthiness tests on
  numbers (`x ? a : b`, `x || d`) treat `0` as falsy; the helpers `jsOrInt`,
  `timeSinceOr`, `jsOrStr` reproduce that behaviour exactly.
* JS regexes are modelled as executable Lean matchers over `List Char`
  with JS semantics: `\b` uses the JS word-character class `[A-Za-z0-9_]`,
  `$` (no `m` flag) matches only at the very end of the string, and `.`
  does not match line terminators.
* The regexes of the CWD pattern registry themselves are abstracted: a
  `CwdPattern` carries a capture function `String → Option String` standing
  for `data.match(pattern.compiled)` followed by taking capture group 1.
  The selection logic (trim, transform, skip, priority sort) is translated
  literally from `extractCwd`.
-/

/-! ## JS semantics helpers -/

/-- JS `x || 0` on a possibly-absent number (`0` is falsy but `0 || 0 = 0`,
so this is plain `getD 0`). -/
def jsOrInt (x : Option Int) : Int := x.getD 0

/-- JS `s || d` on a possibly-absent string: `undefined`, `null` and the
empty string are falsy. -/
def jsOrStr (x : Option String) (d : String) : String :=
  match x with
  | some s => if s = "" then d else s
  | none => d

/-- JS `t ? now - t : Infinity`: the elapsed time since timestamp `t`,
where `none` models `Infinity` (the timestamp is absent, `null`, or the
falsy number `0`). -/
def timeSinceOr (now : Int) (t : Option Int) : Option Int :=
  match t with
  | none => none
  | some v => if v = 0 then none else some (now - v)

/-- `ts < bound` where `ts : Option Int` models a possibly-infinite elapsed
time (`none` = `Infinity`, never `<`). -/
def ltInf (ts : Option Int) (bound : Int) : Bool :=
  match ts with
  | none => false
  | some v => decide (v < bound)

/-- `ts > bound` where `ts : Option Int` models a possibly-infinite elapsed
time (`none` = `Infinity`, always `>`). -/
def gtInf (ts : Option Int) (bound : Int) : Bool :=
  match ts with
  | none => true
  | some v => decide (bound < v)

/-- The JS whitespace class `\s` (and the characters trimmed by
`String.prototype.trim`): space, tab, line feed, vertical tab, form feed,
carriage return, NBSP, BOM (the members relevant to terminal output). -/
def jsSpace (c : Char) : Bool :=
  c = ' ' || c = '\t' || c = '\n' || c = '\x0b' || c = '\x0c' || c = '\r' ||
  c = ' ' || c = '﻿'

/-- Drop leading JS whitespace. -/
def dropLeadingSpace : List Char → List Char
  | [] => []
  | c :: t => if jsSpace c then dropLeadingSpace t else c :: t

/-- JS `String.prototype.trim` on a character list. -/
def jsTrimList (s : List Char) : List Char :=
  ((dropLeadingSpace (dropLeadingSpace s).reverse)).reverse

/-- JS `String.prototype.trim`. -/
def jsTrim (s : String) : String := ⟨jsTrimList s.data⟩

/-! ## CWD pattern registry and extractor (`src/index.js`, `extractCwd`)

A `CwdPattern` models one entry of `cwdPatterns`: `matchCapture` stands for
`data.match(pattern.compiled)` returning the first capture group (or `none`
when the regex does not match); `transform` and `skipIf` are the optional
per-entry hooks; `priority` is the numeric reliability score. -/

structure CwdPattern where
  name : String
  priority : Int
  matchCapture : String → Option String
  transform : Option (String → String)
  skipIf : Option (String → Bool)

/-- One collected match of `extractCwd`: the resolved path together with the
name and priority of the pattern that produced it. -/
structure CwdMatch where
  path : String
  patternName : String
  priority : Int
deriving DecidableEq, Repr

/-- `match[1].trim()` followed by the pattern's `transform` (when present):
the final resolved path string. -/
def resolvePath (p : CwdPattern) (raw : String) : String :=
  let path := jsTrim raw
  match p.transform with
  | some f => f path
  | none => path

/-- The body of the `for` loop of `extractCwd` for one pattern: match, trim,
transform, then drop the match entirely when `skipIf` fires. -/
def applyCwdPattern (p : CwdPattern) (data : String) : Option CwdMatch :=
  match p.matchCapture data with
  | none => none
  | some raw =>
    let path := resolvePath p raw
    match p.skipIf with
    | some f => if f path then none else some ⟨path, p.name, p.priority⟩
    | none => some ⟨path, p.name, p.priority⟩

/-- Insert a match into a list sorted by descending priority (the effect of
`matches.sort((a, b) => b.priority - a.priority)`). -/
def insertByPriority (m : CwdMatch) : List CwdMatch → List CwdMatch
  | [] => [m]
  | x :: xs => if x.priority < m.priority then m :: x :: xs else x :: insertByPriority m xs

/-- Sort the collected matches by descending priority. -/
def sortByPriorityDesc : List CwdMatch → List CwdMatch
  | [] => []
  | m :: ms => insertByPriority m (sortByPriorityDesc ms)

/-- `extractCwd(data)`: collect all non-skipped matches across the registry,
sort descending by priority, return the best one (or `none`). -/
def extractCwd (ps : List CwdPattern) (data : String) : Option CwdMatch :=
  let found := ps.filterMap (fun p => applyCwdPattern p data)
  (sortByPriorityDesc found).head?

/-- Result of one `processCwdBuffer` run: the session's `cwd` afterwards,
whether the git-info trigger (`getGitInfo`) was invoked, and the buffer
contents afterwards. -/
structure CwdProcessResult where
  cwd : String
  gitTriggered : Bool
  buffer : String
deriving DecidableEq, Repr

/-- `processCwdBuffer(uid)` as a pure function of the session's current
`cwd` and the buffered text: an empty (falsy) buffer returns early;
otherwise the buffer is cleared, `extractCwd` runs, and only a non-empty
resolved path different from the current `cwd` updates `cwd` and fires the
git-info trigger. -/
def processCwdBuffer (ps : List CwdPattern) (cwd buffer : String) : CwdProcessResult :=
  if buffer = "" then ⟨cwd, false, buffer⟩
  else
    match extractCwd ps buffer with
    | some r =>
      if r.path ≠ "" ∧ r.path ≠ cwd then ⟨r.path, true, ""⟩ else ⟨cwd, false, ""⟩
    | none => ⟨cwd, false, ""⟩

/-! ## Executable JS-regex matchers

Each JS regex used by the classifier is translated into an executable
matcher over `List Char` with JS semantics. -/

/-- The JS word-character class `\w` = `[A-Za-z0-9_]`. -/
def isWordChar (c : Char) : Bool := c.isAlphanum || c = '_'

/-- JS line terminators (which `.` does not match). -/
def isLineTerm (c : Char) : Bool :=
  c = '\n' || c = '\r' || c = ' ' || c = ' '

/-- Case-insensitive character comparison (for the `i` flag). -/
def charEqCI (a b : Char) : Bool := a.toLower = b.toLower

/-- Remaining input after consuming `pat` case-insensitively, or `none`. -/
def restAfterCI : List Char → List Char → Option (List Char)
  | [], s => some s
  | _ :: _, [] => none
  | p :: ps, c :: cs => if charEqCI p c then restAfterCI ps cs else none

/-- Remaining input after consuming `pat` case-sensitively, or `none`. -/
def restAfterCS : List Char → List Char → Option (List Char)
  | [], s => some s
  | _ :: _, [] => none
  | p :: ps, c :: cs => if p = c then restAfterCS ps cs else none

/-- Try `test` at every position of the input (including the end position),
like an unanchored regex search. -/
def scanAny (test : List Char → Bool) : List Char → Bool
  | [] => test []
  | c :: cs => test (c :: cs) || scanAny test cs

/-- Try `test` at every position preceded by a `\b` word boundary;
`prevWord` records whether the previous character was a word character. -/
def scanBoundary (test : List Char → Bool) (prevWord : Bool) : List Char → Bool
  | [] => false
  | c :: cs => (!prevWord && test (c :: cs)) || scanBoundary test (isWordChar c) cs

/-- JS `String.prototype.includes` (a case-sensitive substring test, also
the semantics of a regex that is a literal string, e.g. `/\x1b\[31m/`). -/
def containsCS (pat : String) (s : String) : Bool :=
  scanAny (fun r => (restAfterCS pat.data r).isSome) s.data

/-- Case-insensitive substring test: a literal regex with the `i` flag. -/
def containsCI (pat : String) (s : String) : Bool :=
  scanAny (fun r => (restAfterCI pat.data r).isSome) s.data

/-- Is the position at the head of the list a `\b` boundary coming out of a
word (end of input, or a non-word character)? -/
def boundaryAfter : List Char → Bool
  | [] => true
  | c :: _ => !isWordChar c

/-- `pat` matches at the head of `r` case-insensitively with a trailing
word boundary. -/
def wordAtCI (pat r : List Char) : Bool :=
  match restAfterCI pat r with
  | some rest => boundaryAfter rest
  | none => false

/-- `/\bpat\b/i` for a fully-word `pat`. -/
def containsWordCI (pat : String) (s : String) : Bool :=
  scanBoundary (wordAtCI pat.data) false s.data

/-- `/\bPAT[!:]/` (case-sensitive token preceded by a word boundary and
followed by `!` or `:`), as in `/\bERR[!:]/` and `/\bWARN[!:]/`. -/
def containsTokBang (pat : String) (s : String) : Bool :=
  scanBoundary
    (fun r =>
      match restAfterCS pat.data r with
      | some (c :: _) => c = '!' || c = ':'
      | _ => false)
    false s.data

/-- `\s*\w` continuation: zero or more further spaces then a word char. -/
def afterSpacesWord : List Char → Bool
  | [] => false
  | c :: cs => if jsSpace c then afterSpacesWord cs else isWordChar c

/-- `\s+\w+`: at least one space, then at least one word character. -/
def spacePlusWord : List Char → Bool
  | [] => false
  | c :: cs => jsSpace c && afterSpacesWord cs

/-- `/running\s+\w+/i`. -/
def matchRunningCmd (s : String) : Bool :=
  scanAny
    (fun r =>
      match restAfterCI "running".data r with
      | some rest => spacePlusWord rest
      | none => false)
    s.data

/-- JS `/\?$/` without the `m` flag: the string ends with `?` (in JS, `$`
does not match before a trailing newline). -/
def endsWithQmark (s : String) : Bool := s.data.getLast? = some '?'

/-- `/claude[- ]?code/i`. -/
def matchClaudeCode (s : String) : Bool :=
  scanAny
    (fun r =>
      match restAfterCI "claude".data r with
      | some rest =>
        (restAfterCI "code".data rest).isSome ||
          (match rest with
           | c :: rest2 => (c = '-' || c = ' ') && (restAfterCI "code".data rest2).isSome
           | [] => false)
      | none => false)
    s.data

/-- Search for `.*\bw` within the current line: `w` (case-insensitive)
preceded by a word boundary, with no line terminator consumed by `.*`. -/
def searchWordSameLineCI (w : List Char) (prevWord : Bool) : List Char → Bool
  | [] => false
  | c :: cs =>
    (!prevWord && (restAfterCI w (c :: cs)).isSome) ||
      (!isLineTerm c && searchWordSameLineCI w (isWordChar c) cs)

/-- `/\bclaude\b.*\bw/i` (used with `w = tool` and `w = agent`). -/
def containsClaudeThenWord (w : String) (s : String) : Bool :=
  scanBoundary
    (fun r =>
      match restAfterCI "claude".data r with
      | some rest => boundaryAfter rest && searchWordSameLineCI w.data true rest
      | none => false)
    false s.data

/-- Does the string contain the character `c`? -/
def containsChar (c : Char) (s : String) : Bool := s.data.any (fun x => x = c)

/-- `/\d+%/`: some digit immediately followed by `%` (the last digit of the
run). -/
def hasDigitPercent : List Char → Bool
  | c :: d :: cs => (c.isDigit && d = '%') || hasDigitPercent (d :: cs)
  | _ => false

/-- `/\d+%/` on a string. -/
def matchDigitPercent (s : String) : Bool := hasDigitPercent s.data

/-- The progress-bar fill class `[=>#-]`. -/
def isBarChar (c : Char) : Bool := c = '=' || c = '>' || c = '#' || c = '-'

/-- `\s*\]`: trailing spaces then the closing bracket. -/
def barTail : List Char → Bool
  | [] => false
  | c :: cs => if jsSpace c then barTail cs else c = ']'

/-- After at least one fill character: more fill, then `\s*\]`. -/
def barBody : List Char → Bool
  | [] => false
  | c :: cs =>
    if isBarChar c then barBody cs
    else if jsSpace c then barTail cs
    else c = ']'

/-- After the opening `[`: `\s*[=>#-]+\s*\]`. -/
def barAfterOpen : List Char → Bool
  | [] => false
  | c :: cs => if jsSpace c then barAfterOpen cs else isBarChar c && barBody cs

/-- `/\[\s*[=>#-]+\s*\]/` (progress bars). -/
def matchProgressBar (s : String) : Bool :=
  scanAny
    (fun r =>
      match r with
      | '[' :: rest => barAfterOpen rest
      | _ => false)
    s.data

/-! ## Output-type classification (`src/index.js`, `OUTPUT_PATTERNS` /
`detectOutputType`) -/

/-- The word alternation of the error regex
`/\b(error|failed|failure|exception|fatal|denied|refused|cannot|unable)\b/i`. -/
def errorWords : List String :=
  ["error", "failed", "failure", "exception", "fatal", "denied", "refused", "cannot", "unable"]

/-- The word alternation of `/\b(warn|warning|deprecated|caution)\b/i`. -/
def warningWords : List String := ["warn", "warning", "deprecated", "caution"]

/-- The word alternation of
`/\b(success|succeeded|passed|complete|completed|done|ok)\b/i`. -/
def successWords : List String :=
  ["success", "succeeded", "passed", "complete", "completed", "done", "ok"]

/-- `OUTPUT_PATTERNS.error.patterns`. -/
def errorPatterns : List (String → Bool) :=
  [fun s => errorWords.any (fun w => containsWordCI w s),
   containsTokBang "ERR",
   containsCS "\x1b[31m",
   containsCS "\x1b[91m"]

/-- `OUTPUT_PATTERNS.warning.patterns`. -/
def warningPatterns : List (String → Bool) :=
  [fun s => warningWords.any (fun w => containsWordCI w s),
   containsTokBang "WARN",
   containsCS "\x1b[33m",
   containsCS "\x1b[93m"]

/-- `OUTPUT_PATTERNS.success.patterns`. -/
def successPatterns : List (String → Bool) :=
  [fun s => successWords.any (fun w => containsWordCI w s),
   containsCS "\x1b[32m",
   containsCS "\x1b[92m",
   fun s => containsChar '✓' s || containsChar '✔' s || containsChar '√' s]

/-- `OUTPUT_PATTERNS.progress.patterns`. -/
def progressPatterns : List (String → Bool) :=
  [matchDigitPercent, matchProgressBar, containsCS "..."]

/-- `OUTPUT_PATTERNS`, in `Object.entries` (insertion) order. -/
def OUTPUT_PATTERNS : List (String × List (String → Bool)) :=
  [("error", errorPatterns), ("warning", warningPatterns),
   ("success", successPatterns), ("progress", progressPatterns)]

/-- `detectOutputType(data)`: the first category (in insertion order) with
any matching pattern, or `none`. -/
def detectOutputType (data : String) : Option String :=
  (OUTPUT_PATTERNS.find? (fun tc => tc.2.any (fun p => p data))).map (fun tc => tc.1)

/-! ## Claude Code detection (`src/claude-detection.js`) -/

/-- `SPINNER_CHARS`: the braille spinner glyphs, in phase order. -/
def SPINNER_CHARS : List Char := ['⠋', '⠙', '⠹', '⠸', '⠼', '⠴', '⠦', '⠧', '⠇', '⠏']

/-- `SPINNER_REGEX.test(data)`: the chunk contains some spinner glyph. -/
def spinnerTest (data : String) : Bool :=
  SPINNER_CHARS.any (fun c => containsChar c data)

/-- `CLAUDE_PATTERNS.textPatterns`, each as an executable matcher. -/
def claudeTextPatterns : List (String → Bool) :=
  [matchClaudeCode,
   containsCI "anthropic",
   containsClaudeThenWord "tool",
   containsClaudeThenWord "agent"]

/-- `CLAUDE_PATTERNS.toolNames`. -/
def claudeToolNames : List String :=
  ["Read", "Edit", "Write", "Bash", "Glob", "Grep", "WebFetch", "WebSearch", "Task", "TodoWrite"]

/-- `containsClaudeIndicators(data)`: spinner glyphs, then text patterns,
then case-sensitive tool-name inclusion. -/
def containsClaudeIndicators (data : String) : Bool :=
  spinnerTest data
    || claudeTextPatterns.any (fun p => p data)
    || claudeToolNames.any (fun t => containsCS t data)

/-- `CLAUDE_PATTERNS.statusPatterns.working` (present in the registry but
not consulted by `detectClaudeState`, which uses the spinner for
`working`). -/
def workingStatusPatterns : List (String → Bool) :=
  [matchRunningCmd, containsCI "executing", containsCI "processing"]

/-- `CLAUDE_PATTERNS.statusPatterns.thinking`. -/
def thinkingStatusPatterns : List (String → Bool) :=
  [containsCI "thinking", containsCI "extended thinking", containsCI "reasoning"]

/-- `CLAUDE_PATTERNS.statusPatterns.waiting`. -/
def waitingStatusPatterns : List (String → Bool) :=
  [containsCI "waiting for input", containsCI "press enter", endsWithQmark]

/-- The `THRESHOLDS` timing constants of `claude-detection.js`. -/
structure Thresholds where
  spinnerIdleTimeout : Int
  idleTimeout : Int
  stateDebounce : Int
deriving DecidableEq, Repr

/-- `THRESHOLDS = { spinnerIdleTimeout: 5000, idleTimeout: 30000,
stateDebounce: 500 }`. -/
def THRESHOLDS : Thresholds := ⟨5000, 30000, 500⟩

/-- `detectSpinnerPhase(data)`: the index of the first spinner glyph (in
phase order) contained in the chunk, or `none`. -/
def detectSpinnerPhase (data : String) : Option Nat :=
  SPINNER_CHARS.findIdx? (fun c => containsChar c data)

/-- The per-session record (`sessions[uid]` in `src/index.js`), restricted
to the fields the classification core reads or writes. -/
structure Session where
  cwd : String
  title : String
  lastOutput : String
  hasActivity : Bool
  activityTime : Option Int
  detectedActivity : Option String
  activityType : String
  activityIntensity : ℚ
  lastOutputTime : Option Int
  outputBurstCount : Nat
  lastOutputType : Option String
  lastOutputTypeTime : Option Int
  aiAssistantId : Option String
  claudeDetected : Bool
  claudeState : Option String
  claudeSpinnerPhase : Option Nat
  claudeLastActivity : Option Int
  claudeLastStateChange : Option Int
deriving DecidableEq, Repr

/-- A freshly initialized session record (`src/index.js`, the new-session
branch of the store sync). -/
def initSession (title : String) : Session :=
  { cwd := "", title := title, lastOutput := "", hasActivity := false,
    activityTime := none, detectedActivity := none, activityType := "idle",
    activityIntensity := 0, lastOutputTime := none, outputBurstCount := 0,
    lastOutputType := none, lastOutputTypeTime := none, aiAssistantId := none,
    claudeDetected := false, claudeState := none, claudeSpinnerPhase := none,
    claudeLastActivity := none, claudeLastStateChange := none }

/-- The `{ state, spinnerPhase, shouldUpdate }` result of
`detectClaudeState`. -/
structure DetectResult where
  state : Option String
  spinnerPhase : Option Nat
  shouldUpdate : Bool
deriving DecidableEq, Repr

/-- The state/phase/shouldUpdate computation of `detectClaudeState` before
the final debounce check: spinner (forces `working`), then thinking
patterns, then waiting patterns, then the `working → waiting` spinner-idle
timeout, then the idle timeout. -/
def detectClaudeStateRaw (s : Session) (data : String) (now : Int) : DetectResult :=
  let timeSinceActivity := now - jsOrInt s.claudeLastActivity
  match detectSpinnerPhase data with
  | some i => ⟨some "working", some i, true⟩
  | none =>
    if thinkingStatusPatterns.any (fun p => p data) then
      ⟨some "thinking", s.claudeSpinnerPhase, true⟩
    else if waitingStatusPatterns.any (fun p => p data) then
      ⟨some "waiting", s.claudeSpinnerPhase, true⟩
    else if s.claudeState = some "working" ∧
        timeSinceActivity > THRESHOLDS.spinnerIdleTimeout then
      ⟨some "waiting", s.claudeSpinnerPhase, true⟩
    else if timeSinceActivity > THRESHOLDS.idleTimeout then
      ⟨some "idle", s.claudeSpinnerPhase, decide (s.claudeState ≠ some "idle")⟩
    else
      ⟨some (jsOrStr s.claudeState "idle"), s.claudeSpinnerPhase, false⟩

/-- `detectClaudeState(session, data, now)`: the guard for undetected
sessions, the raw state computation, and the `stateDebounce` suppression of
rapid changes. -/
def detectClaudeState (s : Session) (data : String) (now : Int) : DetectResult :=
  if s.claudeDetected = false then ⟨none, none, false⟩
  else
    let r := detectClaudeStateRaw s data now
    if r.shouldUpdate = true ∧ now - jsOrInt s.claudeLastStateChange < THRESHOLDS.stateDebounce then
      ⟨r.state, r.spinnerPhase, false⟩
    else r

/-- `updateClaudeDetection(session, data, now)`: initial detection binds the
session (state `idle`, both timestamps set to `now`), then the state-machine
step runs for detected sessions, and any non-empty chunk refreshes
`claudeLastActivity`.  Returns the mutated session and the `updated` flag. -/
def updateClaudeDetection (s : Session) (data : String) (now : Int) : Session × Bool :=
  let first :=
    if s.claudeDetected = false ∧ containsClaudeIndicators data = true then
      ({ s with claudeDetected := true, claudeState := some "idle",
                claudeSpinnerPhase := none, claudeLastActivity := some now,
                claudeLastStateChange := some now }, true)
    else (s, false)
  let s1 := first.1
  if s1.claudeDetected = true then
    let r := detectClaudeState s1 data now
    let s2 :=
      if r.shouldUpdate = true then
        { s1 with claudeState := r.state, claudeSpinnerPhase := r.spinnerPhase,
                  claudeLastStateChange := some now }
      else s1
    let s3 := if 0 < data.length then { s2 with claudeLastActivity := some now } else s2
    (s3, first.2 || r.shouldUpdate)
  else (s1, first.2)

/-! ## Activity classification (`src/index.js`, `parseTerminalOutput`)

The terminal-data handler, as a pure transformation of the session record.
The CWD chunk buffer lives in a separate per-session map (`cwdBuffers`) and
is modelled by `processCwdBuffer` above; the `setTimeout` rescheduling is a
timer concern outside the record.  `markActivity` is folded in via the
`isActive` flag (`uid === activeUid`), and `enableClaude` models
`pluginConfig.enableClaudeDetection !== false`. -/

/-- `BURST_THRESHOLD` (ms). -/
def BURST_THRESHOLD : Int := 250

/-- The legacy detection regex `/claude[- ]?code|anthropic/i` of
`parseTerminalOutput`. -/
def legacyClaudePattern (data : String) : Bool :=
  matchClaudeCode data || containsCI "anthropic" data

/-- The output-type stamping step of `parseTerminalOutput`: classify the
chunk (only when its length exceeds 5) and stamp `lastOutputType` with the
current timestamp on a hit. -/
def stampOutputType (s : Session) (data : String) (now : Int) : Session :=
  match (if 5 < data.length then detectOutputType data else none) with
  | some t => { s with lastOutputType := some t, lastOutputTypeTime := some now }
  | none => s

/-- The activity-classification step of `parseTerminalOutput`: burst /
output / fresh-output for chunks longer than 5 characters (with the
`markActivity` flag for non-foreground sessions), typing decay for short
non-empty chunks.  `timeSinceLastOutput` is `lastOutputTime`-based with JS
truthiness (`0`/absent means `Infinity`). -/
def classifyActivity (isActive : Bool) (s : Session) (data : String) (now : Int) : Session :=
  let timeSinceLastOutput := timeSinceOr now s.lastOutputTime
  if 5 < data.length then
    let sA :=
      if ltInf timeSinceLastOutput BURST_THRESHOLD = true then
        let burst : ℕ := min (s.outputBurstCount + 1) 100
        { s with outputBurstCount := burst, activityType := "command",
                 activityIntensity := min ((burst : ℚ) * 4) 100 }
      else if ltInf timeSinceLastOutput 1000 = true then
        { s with outputBurstCount := s.outputBurstCount - 1, activityType := "output",
                 activityIntensity := min 50 (s.activityIntensity + 10) }
      else
        { s with outputBurstCount := 1, activityType := "output",
                 activityIntensity := 35 }
    let sB := { sA with lastOutputTime := some now }
    if isActive = false then { sB with hasActivity := true, activityTime := some now }
    else sB
  else if 0 < data.length then
    { s with activityType := "typing",
             activityIntensity := max 10 (s.activityIntensity * (19 / 20 : ℚ)) }
  else s

/-- The Claude-detection step of `parseTerminalOutput`
(`pluginConfig.enableClaudeDetection !== false` guard, the module update,
and the legacy fallback pattern). -/
def applyClaudeDetection (enableClaude : Bool) (s : Session) (data : String)
    (now : Int) : Session :=
  if enableClaude = true then
    let s3 := (updateClaudeDetection s data now).1
    if s3.claudeDetected = false ∧ legacyClaudePattern data = true then
      { s3 with detectedActivity := some "claude-code", claudeDetected := true,
                claudeState := some "idle", claudeLastActivity := some now }
    else s3
  else s

/-- `parseTerminalOutput(uid, data)` restricted to its session-record
mutations: store `lastOutput`, stamp the output type, classify activity
(burst / output / typing) with its intensity arithmetic, mark unseen
activity for non-foreground sessions, then run Claude detection (including
the legacy fallback pattern).  The steps read and write disjoint fields, so
the sequential composition matches the in-place mutations of the source
(in particular `timeSinceLastOutput`, read by the classification step, is
computed from `lastOutputTime`, which the earlier steps do not write). -/
def parseTerminalOutput (enableClaude isActive : Bool) (s : Session) (data : String)
    (now : Int) : Session :=
  applyClaudeDetection enableClaude
    (classifyActivity isActive (stampOutputType { s with lastOutput := data } data now)
      data now)
    data now

/-! ## Decay sweeper (`src/index.js`, `clearOldActivity`) -/

/-- The slice of `pluginConfig` the sweeper reads.  `claudeIdleTimeout` is
`Option` because the code guards it with `|| 5000`. -/
structure SweepConfig where
  activityTimeout : Int
  claudeIdleTimeout : Option Int
deriving DecidableEq, Repr

/-- The `defaultConfig` values of the fields the sweeper reads
(`activityTimeout: 1500`, `claudeIdleTimeout: 5000`). -/
def defaultSweepConfig : SweepConfig := ⟨1500, some 5000⟩

/-- `pluginConfig.claudeIdleTimeout || 5000` (absent or falsy `0` gives the
default). -/
def effClaudeIdleTimeout (cfg : SweepConfig) : Int :=
  match cfg.claudeIdleTimeout with
  | none => 5000
  | some v => if v = 0 then 5000 else v

/-- Sweeper step (a): clear a stale `hasActivity` flag (the JS condition
`session.hasActivity && session.activityTime` with truthiness, then the
`activityTimeout` comparison). -/
def sweepHasActivity (cfg : SweepConfig) (now : Int) (s : Session) : Session :=
  match s.activityTime with
  | some t =>
    if s.hasActivity = true ∧ t ≠ 0 ∧ now - t > cfg.activityTimeout then
      { s with hasActivity := false }
    else s
  | none => s

/-- Sweeper step (b): expire the output-type indicator after 3 seconds. -/
def sweepOutputType (now : Int) (s : Session) : Session :=
  match s.lastOutputType, s.lastOutputTypeTime with
  | some ot, some t =>
    if ot ≠ "" ∧ t ≠ 0 ∧ now - t > 3000 then { s with lastOutputType := none } else s
  | _, _ => s

/-- Sweeper step (c): exponential decay of `activityIntensity` (×0.85) and
`outputBurstCount` (floor ×0.8) after 1.5 s of silence, snapping below 3
to zero and `activityType = idle` (the source re-assigns `activityType`
only when it differs; the resulting record is the same). -/
def sweepDecay (now : Int) (s : Session) : Session :=
  if gtInf (timeSinceOr now s.lastOutputTime) 1500 = true then
    let s3a :=
      { s with activityIntensity := max 0 (s.activityIntensity * (17 / 20 : ℚ)),
               outputBurstCount := s.outputBurstCount * 4 / 5 }
    if s3a.activityIntensity < 3 then
      { s3a with activityIntensity := 0, activityType := "idle" }
    else s3a
  else s

/-- Sweeper step (d): force `working → waiting` for a Claude-bound session
once `claudeIdleTimeout` (default 5000 ms) of silence has elapsed. -/
def sweepClaude (cfg : SweepConfig) (now : Int) (s : Session) : Session :=
  if s.claudeDetected = true ∧ s.claudeState = some "working" then
    if gtInf (timeSinceOr now s.claudeLastActivity) (effClaudeIdleTimeout cfg) = true then
      { s with claudeState := some "waiting", claudeLastStateChange := some now }
    else s
  else s

/-- One session's pass of `clearOldActivity()`: the four sweeper steps in
source order. -/
def clearOldActivitySession (cfg : SweepConfig) (now : Int) (s : Session) : Session :=
  sweepClaude cfg now (sweepDecay now (sweepOutputType now (sweepHasActivity cfg now s)))

/-! ## Lemmas about the priority sort of `extractCwd` -/

/-- Membership in an `insertByPriority` result. -/
lemma mem_insertByPriority {m x : CwdMatch} {l : List CwdMatch} :
    m ∈ insertByPriority x l ↔ m = x ∨ m ∈ l := by
  induction l with
  | nil => simp [insertByPriority]
  | cons y ys ih =>
    simp only [insertByPriority]
    split
    · simp only [List.mem_cons]
    · simp only [List.mem_cons, ih]
      tauto

/-- Membership is preserved by the priority sort. -/
lemma mem_sortByPriorityDesc {m : CwdMatch} {l : List CwdMatch} :
    m ∈ sortByPriorityDesc l ↔ m ∈ l := by
  induction l with
  | nil => simp [sortByPriorityDesc]
  | cons y ys ih => simp [sortByPriorityDesc, mem_insertByPriority, ih]

/-- If the head of a list dominates all its members, the same holds after
inserting one more element. -/
lemma insertByPriority_headMax (x : CwdMatch) (l : List CwdMatch)
    (hl : ∀ m, l.head? = some m → ∀ z ∈ l, z.priority ≤ m.priority) :
    ∀ m, (insertByPriority x l).head? = some m →
      ∀ z ∈ insertByPriority x l, z.priority ≤ m.priority := by
  cases l with
  | nil =>
    intro m hm z hz
    simp only [insertByPriority, List.head?, Option.some.injEq] at hm
    simp only [insertByPriority, List.mem_singleton] at hz
    subst hm
    subst hz
    exact le_refl _
  | cons y ys =>
    intro m hm z hz
    by_cases hc : y.priority < x.priority
    · simp only [insertByPriority, if_pos hc, List.head?, Option.some.injEq] at hm
      simp only [insertByPriority, if_pos hc] at hz
      subst hm
      rcases List.mem_cons.mp hz with h | h
      · subst h; exact le_refl _
      · rcases List.mem_cons.mp h with h' | h'
        · subst h'; exact le_of_lt hc
        · exact le_trans (hl y rfl z (List.mem_cons_of_mem _ h')) (le_of_lt hc)
    · simp only [insertByPriority, if_neg hc, List.head?, Option.some.injEq] at hm
      simp only [insertByPriority, if_neg hc] at hz
      subst hm
      rcases List.mem_cons.mp hz with h | h
      · subst h; exact le_refl _
      · rcases mem_insertByPriority.mp h with h' | h'
        · subst h'; exact le_of_not_lt hc
        · exact hl y rfl z (List.mem_cons_of_mem _ h')

/-- The head of the priority sort dominates every element of the sorted
list. -/
lemma sortByPriorityDesc_headMax (l : List CwdMatch) :
    ∀ m, (sortByPriorityDesc l).head? = some m →
      ∀ z ∈ sortByPriorityDesc l, z.priority ≤ m.priority := by
  induction l with
  | nil => intro m hm; simp [sortByPriorityDesc] at hm
  | cons a t ih => exact insertByPriority_headMax a _ ih

/-- `extractCwd` unfolded to its sorted-matches form. -/
lemma extractCwd_def (ps : List CwdPattern) (data : String) :
    extractCwd ps data
      = (sortByPriorityDesc (ps.filterMap (fun p => applyCwdPattern p data))).head? := rfl

/-- Any result of `extractCwd` was produced by some registry pattern. -/
lemma extractCwd_mem {ps : List CwdPattern} {data : String} {m : CwdMatch}
    (h : extractCwd ps data = some m) :
    ∃ q ∈ ps, applyCwdPattern q data = some m := by
  rw [extractCwd_def] at h
  have hmem : m ∈ sortByPriorityDesc (ps.filterMap (fun p => applyCwdPattern p data)) := by
    cases hs : sortByPriorityDesc (ps.filterMap (fun p => applyCwdPattern p data)) with
    | nil => rw [hs] at h; simp at h
    | cons a t =>
      rw [hs] at h
      simp only [List.head?, Option.some.injEq] at h
      rw [← h]
      exact List.mem_cons_self _ _
  exact List.mem_filterMap.mp (mem_sortByPriorityDesc.mp hmem)

/-- If `c₁` is a produced match whose priority dominates every produced
match, and every produced match of `c₁`'s priority is `c₁` itself, then
`extractCwd` returns exactly `c₁`. -/
lemma extractCwd_eq_of_max {ps : List CwdPattern} {data : String}
    {p₁ : CwdPattern} {c₁ : CwdMatch}
    (h₁ : p₁ ∈ ps) (hc₁ : applyCwdPattern p₁ data = some c₁)
    (hmax : ∀ q ∈ ps, ∀ c, applyCwdPattern q data = some c → c.priority ≤ c₁.priority)
    (huniq : ∀ q ∈ ps, ∀ c, applyCwdPattern q data = some c →
      c.priority = c₁.priority → c = c₁) :
    extractCwd ps data = some c₁ := by
  have hc₁mem : c₁ ∈ ps.filterMap (fun p => applyCwdPattern p data) :=
    List.mem_filterMap.mpr ⟨p₁, h₁, hc₁⟩
  have hc₁sort : c₁ ∈ sortByPriorityDesc (ps.filterMap (fun p => applyCwdPattern p data)) :=
    mem_sortByPriorityDesc.mpr hc₁mem
  cases hs : sortByPriorityDesc (ps.filterMap (fun p => applyCwdPattern p data)) with
  | nil =>
    exfalso
    rw [hs] at hc₁sort
    simp at hc₁sort
  | cons a t =>
    have hhead : (sortByPriorityDesc (ps.filterMap (fun p => applyCwdPattern p data))).head?
        = some a := by rw [hs]; rfl
    have hamem : a ∈ ps.filterMap (fun p => applyCwdPattern p data) := by
      apply mem_sortByPriorityDesc.mp
      rw [hs]
      exact List.mem_cons_self _ _
    obtain ⟨q, hq, hqa⟩ := List.mem_filterMap.mp hamem
    have hle : a.priority ≤ c₁.priority := hmax q hq a hqa
    have hge : c₁.priority ≤ a.priority :=
      sortByPriorityDesc_headMax _ a hhead c₁ hc₁sort
    have ha : a = c₁ := huniq q hq a hqa (le_antisymm hle hge)
    rw [extractCwd_def, hhead, ha]

/-! ## Claim C1: higher-priority CWD pattern wins, independent of registry
order -/

/-- C1.  If two registry patterns `p₁` and `p₂` both produce (non-skipped)
matches `c₁` and `c₂` on the same text with `c₂.priority < c₁.priority`,
and `c₁` is the dominant produced match (every produced match has priority
`≤ c₁.priority`, and any of equal priority is `c₁` itself), then
`extractCwd` returns `c₁` — and never `c₂` — for any permutation `ps'` of
the registry, i.e. regardless of registry iteration order. -/
theorem c1_extract_higher_priority_wins (ps ps' : List CwdPattern) (data : String)
    (p₁ p₂ : CwdPattern) (c₁ c₂ : CwdMatch)
    (hperm : ps.Perm ps')
    (h₁ : p₁ ∈ ps) (h₂ : p₂ ∈ ps)
    (hc₁ : applyCwdPattern p₁ data = some c₁)
    (hc₂ : applyCwdPattern p₂ data = some c₂)
    (hlt : c₂.priority < c₁.priority)
    (hmax : ∀ q ∈ ps, ∀ c, applyCwdPattern q data = some c → c.priority ≤ c₁.priority)
    (huniq : ∀ q ∈ ps, ∀ c, applyCwdPattern q data = some c →
      c.priority = c₁.priority → c = c₁) :
    extractCwd ps' data = some c₁ ∧ extractCwd ps' data ≠ some c₂ := by
  have hmain : extractCwd ps' data = some c₁ :=
    extractCwd_eq_of_max (hperm.mem_iff.mp h₁) hc₁
      (fun q hq c hc => hmax q (hperm.mem_iff.mpr hq) c hc)
      (fun q hq c hc hpr => huniq q (hperm.mem_iff.mpr hq) c hc hpr)
  refine ⟨hmain, ?_⟩
  rw [hmain]
  intro hcontra
  have : c₁ = c₂ := by injection hcontra
  rw [this] at hlt
  exact lt_irrefl _ hlt

/-- A low-priority witness pattern in the style of the registry's
`Unix Path` entry (priority 35), with its drive-letter transform. -/
def unixToWinTransform (m : String) : String :=
  match m.data with
  | _ :: d :: rest =>
    ⟨[d.toUpper, ':'] ++
      (if rest = [] then ['\\'] else rest.map (fun c => if c = '/' then '\\' else c))⟩
  | other => ⟨other⟩

/-- Witness pattern: a `Unix Path`-style entry (priority 35) matching the
demo text with capture `/c/users/alex`. -/
def wPatUnix : CwdPattern :=
  { name := "Unix Path", priority := 35,
    matchCapture := fun s => if s = "demo" then some "/c/users/alex" else none,
    transform := some unixToWinTransform, skipIf := none }

/-- Witness pattern: a `PS Prompt`-style entry (priority 70) matching the
demo text with capture `C:\Users\alex\proj`. -/
def wPatPS : CwdPattern :=
  { name := "PS Prompt", priority := 70,
    matchCapture := fun s => if s = "demo" then some "C:\\Users\\alex\\proj" else none,
    transform := none, skipIf := none }

/-- The resolved match of `wPatUnix` on the demo text. -/
def wMatchUnix : CwdMatch := ⟨"C:\\users\\alex", "Unix Path", 35⟩

/-- The resolved match of `wPatPS` on the demo text. -/
def wMatchPS : CwdMatch := ⟨"C:\\Users\\alex\\proj", "PS Prompt", 70⟩

/-- Witness for C1: on a concrete two-pattern registry where both patterns
match, both orders of the registry return the priority-70 candidate and
never the priority-35 one. -/
theorem c1_witness :
    extractCwd [wPatPS, wPatUnix] "demo" = some wMatchPS ∧
    extractCwd [wPatPS, wPatUnix] "demo" ≠ some wMatchUnix := by
  have happly₁ : applyCwdPattern wPatPS "demo" = some wMatchPS := by decide
  have happly₂ : applyCwdPattern wPatUnix "demo" = some wMatchUnix := by decide
  apply c1_extract_higher_priority_wins [wPatUnix, wPatPS] [wPatPS, wPatUnix] "demo"
    wPatPS wPatUnix wMatchPS wMatchUnix
  · exact List.Perm.swap wPatPS wPatUnix []
  · exact List.mem_cons_of_mem _ (List.mem_cons_self _ _)
  · exact List.mem_cons_self _ _
  · exact happly₁
  · exact happly₂
  · decide
  · intro q hq c hc
    rcases List.mem_cons.mp hq with h | h
    · subst h
      rw [happly₂] at hc
      injection hc with hc
      subst hc
      decide
    · rcases List.mem_cons.mp h with h' | h'
      · subst h'
        rw [happly₁] at hc
        injection hc with hc
        subst hc
        decide
      · simp at h'
  · intro q hq c hc hpr
    rcases List.mem_cons.mp hq with h | h
    · subst h
      rw [happly₂] at hc
      injection hc with hc
      subst hc
      exact absurd hpr (by decide)
    · rcases List.mem_cons.mp h with h' | h'
      · subst h'
        rw [happly₁] at hc
        injection hc with hc
        subst hc
        rfl
      · simp at h'

/-! ## Claim C6: a firing skip-predicate excludes exactly that match -/

/-- C6.  When a pattern `p` matches but its skip-predicate returns `true`
on the transformed path, `extractCwd` behaves exactly as if `p` were not in
the registry: the result over `l1 ++ p :: l2` equals the result over
`l1 ++ l2` (so `p`'s match is never returned, and matches of the other —
including lower-priority — patterns are returned unhindered), and any
returned match was produced by one of the other patterns. -/
theorem c6_skip_excludes_match (l1 l2 : List CwdPattern) (p : CwdPattern)
    (data raw : String) (f : String → Bool)
    (hm : p.matchCapture data = some raw)
    (hf : p.skipIf = some f)
    (hskip : f (resolvePath p raw) = true) :
    extractCwd (l1 ++ p :: l2) data = extractCwd (l1 ++ l2) data ∧
    ∀ m, extractCwd (l1 ++ p :: l2) data = some m →
      ∃ q ∈ l1 ++ l2, applyCwdPattern q data = some m := by
  have hnone : applyCwdPattern p data = none := by
    simp [applyCwdPattern, hm, hf, hskip]
  have heq : extractCwd (l1 ++ p :: l2) data = extractCwd (l1 ++ l2) data := by
    rw [extractCwd_def, extractCwd_def, List.filterMap_append, List.filterMap_append,
      List.filterMap_cons, hnone]
  refine ⟨heq, ?_⟩
  intro m hm'
  rw [heq] at hm'
  exact extractCwd_mem hm'

/-- Witness pattern for C6: a `CMD Prompt`-style entry (priority 60) whose
match resolves to a Windows system directory, with the registry's
shell-installation skip-predicate. -/
def wSkipSystemDirs : String → Bool := fun path =>
  containsCI "\\windows\\" path || containsCI "\\system32\\" path ||
    containsCI "\\program files" path

/-- Witness pattern: `CMD Prompt`-style entry matching the second demo text
with a system-directory capture (so its skip-predicate fires). -/
def wPatCmd : CwdPattern :=
  { name := "CMD Prompt", priority := 60,
    matchCapture := fun s => if s = "demo2" then some "C:\\Windows\\System32" else none,
    transform := none, skipIf := some wSkipSystemDirs }

/-- Witness pattern: `Unix Path`-style entry (priority 35) matching the
second demo text with capture `/c/repo`. -/
def wPatUnix2 : CwdPattern :=
  { name := "Unix Path", priority := 35,
    matchCapture := fun s => if s = "demo2" then some "/c/repo" else none,
    transform := some unixToWinTransform, skipIf := none }

/-- Witness for C6: the skipped priority-60 match is excluded and the
lower-priority (35) pattern's candidate is returned instead. -/
theorem c6_witness :
    (extractCwd [wPatCmd, wPatUnix2] "demo2" = extractCwd [wPatUnix2] "demo2" ∧
      ∀ m, extractCwd [wPatCmd, wPatUnix2] "demo2" = some m →
        ∃ q ∈ [wPatUnix2], applyCwdPattern q "demo2" = some m) ∧
    extractCwd [wPatCmd, wPatUnix2] "demo2" = some ⟨"C:\\repo", "Unix Path", 35⟩ := by
  constructor
  · exact c6_skip_excludes_match [] [wPatUnix2] wPatCmd "demo2" "C:\\Windows\\System32"
      wSkipSystemDirs (by decide) rfl (by decide)
  · decide

/-! ## Claim C5: an unchanged resolved path triggers no downstream side
effect -/

/-- When the buffer is non-empty and `extractCwd` produces a match, one
`processCwdBuffer` run reduces to the path/`cwd` comparison. -/
lemma processCwdBuffer_of_some {ps : List CwdPattern} {buffer : String} {m : CwdMatch}
    (hb : ¬ buffer = "") (hm : extractCwd ps buffer = some m) (cwd : String) :
    processCwdBuffer ps cwd buffer
      = if m.path ≠ "" ∧ m.path ≠ cwd then ⟨m.path, true, ""⟩ else ⟨cwd, false, ""⟩ := by
  unfold processCwdBuffer
  rw [if_neg hb, hm]

/-- C5.  If the match extracted from the buffered text resolves (after trim
and transform — `CwdMatch.path` is the post-transform string) to exactly
the session's current `cwd`, then `processCwdBuffer` neither fires the
git-info trigger nor changes `cwd`.  Moreover, re-processing the same
buffered text a second time — starting from any prior `cwd` — never fires
the trigger on the second run and leaves the once-updated `cwd` fixed. -/
theorem c5_unchanged_cwd_no_side_effect (ps : List CwdPattern) (cwd buffer : String)
    (m : CwdMatch)
    (hm : extractCwd ps buffer = some m) (heq : m.path = cwd) :
    ((processCwdBuffer ps cwd buffer).gitTriggered = false ∧
      (processCwdBuffer ps cwd buffer).cwd = cwd) ∧
    ∀ cwd₀ : String,
      (processCwdBuffer ps (processCwdBuffer ps cwd₀ buffer).cwd buffer).gitTriggered
          = false ∧
      (processCwdBuffer ps (processCwdBuffer ps cwd₀ buffer).cwd buffer).cwd
          = (processCwdBuffer ps cwd₀ buffer).cwd := by
  by_cases hb : buffer = ""
  · constructor
    · simp [processCwdBuffer, hb]
    · intro cwd₀
      simp [processCwdBuffer, hb]
  · constructor
    · have h1 : processCwdBuffer ps cwd buffer = ⟨cwd, false, ""⟩ := by
        rw [processCwdBuffer_of_some hb hm cwd]
        have hcnd : ¬(m.path ≠ "" ∧ m.path ≠ cwd) := fun h => h.2 heq
        rw [if_neg hcnd]
      rw [h1]
      exact ⟨rfl, rfl⟩
    · intro cwd₀
      have h2 : processCwdBuffer ps m.path buffer = ⟨m.path, false, ""⟩ := by
        rw [processCwdBuffer_of_some hb hm m.path]
        have hcnd : ¬(m.path ≠ "" ∧ m.path ≠ m.path) := fun h => h.2 rfl
        rw [if_neg hcnd]
      by_cases hcond : m.path ≠ "" ∧ m.path ≠ cwd₀
      · have h1 : processCwdBuffer ps cwd₀ buffer = ⟨m.path, true, ""⟩ := by
          rw [processCwdBuffer_of_some hb hm cwd₀, if_pos hcond]
        rw [h1]
        show (processCwdBuffer ps m.path buffer).gitTriggered = false ∧
          (processCwdBuffer ps m.path buffer).cwd = m.path
        rw [h2]
        exact ⟨rfl, rfl⟩
      · have h1 : processCwdBuffer ps cwd₀ buffer = ⟨cwd₀, false, ""⟩ := by
          rw [processCwdBuffer_of_some hb hm cwd₀, if_neg hcond]
        rw [h1]
        show (processCwdBuffer ps cwd₀ buffer).gitTriggered = false ∧
          (processCwdBuffer ps cwd₀ buffer).cwd = cwd₀
        rw [h1]
        exact ⟨rfl, rfl⟩

/-- Witness for C5: the `Unix Path`-style pattern resolves `/c/repo` to
`C:\repo` (the post-transform string); with the session's `cwd` already
equal to it, no git trigger fires and `cwd` is unchanged. -/
theorem c5_witness :
    ((processCwdBuffer [wPatUnix2] "C:\\repo" "demo2").gitTriggered = false ∧
      (processCwdBuffer [wPatUnix2] "C:\\repo" "demo2").cwd = "C:\\repo") ∧
    ∀ cwd₀ : String,
      (processCwdBuffer [wPatUnix2]
          (processCwdBuffer [wPatUnix2] cwd₀ "demo2").cwd "demo2").gitTriggered = false ∧
      (processCwdBuffer [wPatUnix2]
          (processCwdBuffer [wPatUnix2] cwd₀ "demo2").cwd "demo2").cwd
        = (processCwdBuffer [wPatUnix2] cwd₀ "demo2").cwd :=
  c5_unchanged_cwd_no_side_effect [wPatUnix2] "C:\\repo" "demo2"
    ⟨"C:\\repo", "Unix Path", 35⟩ (by decide) rfl

/-! ## Lemmas about the Claude state machine -/

/-- A successful `findIdx?` points at an element satisfying the predicate. -/
lemma findIdx?_spec {α : Type} (p : α → Bool) (l : List α) (i : Nat)
    (h : l.findIdx? p = some i) : ∃ a, l.get? i = some a ∧ p a = true := by
  induction l generalizing i with
  | nil => simp at h
  | cons x xs ih =>
    rw [List.findIdx?_cons] at h
    by_cases hp : p x
    · rw [if_pos hp] at h
      injection h with h
      subst h
      exact ⟨x, rfl, hp⟩
    · rw [if_neg hp, List.findIdx?_start_succ] at h
      obtain ⟨j, hj, hji⟩ := Option.map_eq_some'.mp h
      obtain ⟨a, ha, hpa⟩ := ih j hj
      subst hji
      exact ⟨a, by simpa using ha, hpa⟩

/-- A debounced (or quiescent) step leaves `shouldUpdate = false`. -/
lemma detectClaudeState_shouldUpdate_false_of_debounce (s : Session) (data : String)
    (now : Int) (hdet : s.claudeDetected = true)
    (hd : now - jsOrInt s.claudeLastStateChange < THRESHOLDS.stateDebounce) :
    (detectClaudeState s data now).shouldUpdate = false := by
  unfold detectClaudeState
  rw [hdet]
  simp only [Bool.true_eq_false, if_false]
  by_cases hru : (detectClaudeStateRaw s data now).shouldUpdate = true
  · rw [if_pos ⟨hru, hd⟩]
  · rw [if_neg (fun hc => hru hc.1)]
    exact Bool.not_eq_true _ |>.mp hru

/-- For an already-detected session, `updateClaudeDetection` skips initial
binding and applies the state-machine step followed by the activity-stamp
step. -/
lemma updateClaudeDetection_of_detected (s : Session) (data : String) (now : Int)
    (hdet : s.claudeDetected = true) :
    (updateClaudeDetection s data now).1 =
      (let r := detectClaudeState s data now
       let s2 :=
         if r.shouldUpdate = true then
           { s with claudeState := r.state, claudeSpinnerPhase := r.spinnerPhase,
                    claudeLastStateChange := some now }
         else s
       if 0 < data.length then { s2 with claudeLastActivity := some now } else s2) := by
  unfold updateClaudeDetection
  simp [hdet]

/-- A step with `shouldUpdate = false` changes neither `claudeState`, nor
`claudeSpinnerPhase`, nor `claudeLastStateChange`. -/
lemma updateClaudeDetection_no_change (s : Session) (data : String) (now : Int)
    (hdet : s.claudeDetected = true)
    (hru : (detectClaudeState s data now).shouldUpdate = false) :
    (updateClaudeDetection s data now).1.claudeState = s.claudeState ∧
    (updateClaudeDetection s data now).1.claudeSpinnerPhase = s.claudeSpinnerPhase ∧
    (updateClaudeDetection s data now).1.claudeLastStateChange = s.claudeLastStateChange := by
  rw [updateClaudeDetection_of_detected s data now hdet]
  simp only [hru, Bool.false_eq_true, if_false, apply_ite]
  by_cases hl : 0 < data.length <;> simp [hl]

/-- A step with `shouldUpdate = true` records the computed state and phase
and stamps `claudeLastStateChange`. -/
lemma updateClaudeDetection_change (s : Session) (data : String) (now : Int)
    (hdet : s.claudeDetected = true)
    (hru : (detectClaudeState s data now).shouldUpdate = true) :
    (updateClaudeDetection s data now).1.claudeState = (detectClaudeState s data now).state ∧
    (updateClaudeDetection s data now).1.claudeSpinnerPhase
      = (detectClaudeState s data now).spinnerPhase ∧
    (updateClaudeDetection s data now).1.claudeLastStateChange = some now ∧
    (updateClaudeDetection s data now).1.claudeDetected = true := by
  rw [updateClaudeDetection_of_detected s data now hdet]
  simp only [hru, if_true, apply_ite]
  by_cases hl : 0 < data.length <;> simp [hl, hdet]

/-- The session mutation performed by the initial-detection branch of
`updateClaudeDetection`: bind the session, state `idle`, both timestamps
set to `now`. -/
def boundSession (s : Session) (now : Int) : Session :=
  { s with claudeDetected := true, claudeState := some "idle",
           claudeSpinnerPhase := none, claudeLastActivity := some now,
           claudeLastStateChange := some now }

/-- For an undetected session whose chunk contains Claude indicators,
`updateClaudeDetection` first binds the session and then runs the
state-machine step on the bound session. -/
lemma updateClaudeDetection_of_initial (s : Session) (data : String) (now : Int)
    (hdet : s.claudeDetected = false)
    (hind : containsClaudeIndicators data = true) :
    (updateClaudeDetection s data now).1 =
      (let r := detectClaudeState (boundSession s now) data now
       let s2 :=
         if r.shouldUpdate = true then
           { boundSession s now with claudeState := r.state, claudeSpinnerPhase := r.spinnerPhase,
                                     claudeLastStateChange := some now }
         else boundSession s now
       if 0 < data.length then { s2 with claudeLastActivity := some now } else s2) := by
  unfold updateClaudeDetection boundSession
  simp [hdet, hind]

/-! ## Claim C2: spinner presence forces `working` with the glyph's phase -/

/-- C2.  For a session already bound (`claudeDetected`), if the chunk
contains a spinner glyph (`detectSpinnerPhase` returns index `i`) and at
least `stateDebounce` has elapsed since the last accepted state change,
the update records state `working` and spinner phase `i` — regardless of
any competing thinking/waiting pattern in the same chunk, since the spinner
branch precedes them.  The index `i` points at a glyph of `SPINNER_CHARS`
contained in the chunk. -/
theorem c2_spinner_forces_working (s : Session) (data : String) (now : Int) (i : Nat)
    (hdet : s.claudeDetected = true)
    (hspin : detectSpinnerPhase data = some i)
    (hdeb : THRESHOLDS.stateDebounce ≤ now - jsOrInt s.claudeLastStateChange) :
    (updateClaudeDetection s data now).1.claudeState = some "working" ∧
    (updateClaudeDetection s data now).1.claudeSpinnerPhase = some i ∧
    ∃ c, SPINNER_CHARS.get? i = some c ∧ containsChar c data = true := by
  have hraw : detectClaudeStateRaw s data now = ⟨some "working", some i, true⟩ := by
    unfold detectClaudeStateRaw
    rw [hspin]
  have hnd : ¬(now - jsOrInt s.claudeLastStateChange < THRESHOLDS.stateDebounce) :=
    not_lt.mpr hdeb
  have hds : detectClaudeState s data now = ⟨some "working", some i, true⟩ := by
    unfold detectClaudeState
    simp [hdet, hraw, hnd]
  have hupd := updateClaudeDetection_change s data now hdet (by rw [hds])
  refine ⟨?_, ?_, findIdx?_spec _ _ _ hspin⟩
  · rw [hupd.1, hds]
  · rw [hupd.2.1, hds]

/-- A concrete bound session used by the C2/C3/C8 witnesses. -/
def wBoundSession : Session :=
  { initSession "term" with
    claudeDetected := true, claudeState := some "idle",
    claudeLastActivity := some 1000, claudeLastStateChange := some 1000 }

/-- Witness for C2: a chunk carrying the phase-1 glyph `⠙` together with a
competing `thinking` pattern still yields `working` with phase 1. -/
theorem c2_witness :
    (updateClaudeDetection wBoundSession "⠙ thinking hard" 2000).1.claudeState
        = some "working" ∧
    (updateClaudeDetection wBoundSession "⠙ thinking hard" 2000).1.claudeSpinnerPhase
        = some 1 ∧
    ∃ c, SPINNER_CHARS.get? 1 = some c ∧ containsChar c "⠙ thinking hard" = true :=
  c2_spinner_forces_working wBoundSession "⠙ thinking hard" 2000 1 (by decide) (by decide)
    (by decide)

/-! ## Claim C3: a second state change within the debounce window is
dropped -/

/-- C3.  For a bound session, if a first chunk's computed state change is
accepted at time `t₁` and a second chunk arrives at `t₂` with
`t₂ - t₁ < stateDebounce`, then the second step — whatever change it
computes — leaves `claudeState` and `claudeLastStateChange` exactly as the
first step left them. -/
theorem c3_second_change_within_debounce_dropped (s : Session) (data₁ data₂ : String)
    (t₁ t₂ : Int)
    (hdet : s.claudeDetected = true)
    (h1 : (detectClaudeState s data₁ t₁).shouldUpdate = true)
    (hlt : t₂ - t₁ < THRESHOLDS.stateDebounce) :
    (updateClaudeDetection s data₁ t₁).1.claudeLastStateChange = some t₁ ∧
    (updateClaudeDetection (updateClaudeDetection s data₁ t₁).1 data₂ t₂).1.claudeState
      = (updateClaudeDetection s data₁ t₁).1.claudeState ∧
    (updateClaudeDetection (updateClaudeDetection s data₁ t₁).1 data₂ t₂).1.claudeLastStateChange
      = some t₁ := by
  have hupd := updateClaudeDetection_change s data₁ t₁ hdet h1
  have hdet₁ : (updateClaudeDetection s data₁ t₁).1.claudeDetected = true := hupd.2.2.2
  have hlsc : (updateClaudeDetection s data₁ t₁).1.claudeLastStateChange = some t₁ :=
    hupd.2.2.1
  have hd2 : t₂ - jsOrInt (updateClaudeDetection s data₁ t₁).1.claudeLastStateChange
      < THRESHOLDS.stateDebounce := by
    rw [hlsc]
    simpa [jsOrInt] using hlt
  have hru := detectClaudeState_shouldUpdate_false_of_debounce _ data₂ t₂ hdet₁ hd2
  have hnc := updateClaudeDetection_no_change _ data₂ t₂ hdet₁ hru
  exact ⟨hlsc, hnc.1, by rw [hnc.2.2, hlsc]⟩

/-- Witness for C3: a spinner chunk at `t₁ = 2000` is accepted (state
`working`), and a waiting chunk (`press enter`) at `t₂ = 2300 < 2000 + 500`
is dropped, leaving state and change-timestamp untouched. -/
theorem c3_witness :
    (updateClaudeDetection wBoundSession "⠋ go" 2000).1.claudeLastStateChange = some 2000 ∧
    (updateClaudeDetection (updateClaudeDetection wBoundSession "⠋ go" 2000).1
        "press enter" 2300).1.claudeState
      = (updateClaudeDetection wBoundSession "⠋ go" 2000).1.claudeState ∧
    (updateClaudeDetection (updateClaudeDetection wBoundSession "⠋ go" 2000).1
        "press enter" 2300).1.claudeLastStateChange = some 2000 :=
  c3_second_change_within_debounce_dropped wBoundSession "⠋ go" "press enter" 2000 2300
    (by decide) (by decide) (by decide)

/-! ## Claim C8: every non-empty chunk refreshes the activity timestamp -/

/-- C8.  For a bound session, processing any non-empty chunk sets
`claudeLastActivity` to `now`, whether or not a state transition occurred
or was debounced. -/
theorem c8_nonempty_chunk_stamps_activity (s : Session) (data : String) (now : Int)
    (hdet : s.claudeDetected = true) (hlen : 0 < data.length) :
    (updateClaudeDetection s data now).1.claudeLastActivity = some now := by
  rw [updateClaudeDetection_of_detected s data now hdet]
  simp [hlen]

/-- Witness for C8: a chunk with no state pattern at all still refreshes
`claudeLastActivity`. -/
theorem c8_witness :
    (updateClaudeDetection wBoundSession "plain output" 5000).1.claudeLastActivity
      = some 5000 :=
  c8_nonempty_chunk_stamps_activity wBoundSession "plain output" 5000 (by decide) (by decide)

/-! ## Claim C10: the binding call always leaves the session idle -/

/-- C10.  For a session not yet bound, the single `updateClaudeDetection`
call that performs the initial binding leaves `claudeState = idle`,
`claudeSpinnerPhase = null`, and both timestamps at `now` — even when the
binding chunk itself contains a spinner glyph or a state pattern, because
the binding sets `claudeLastStateChange := now` and the same-call state
transition is then suppressed by the debounce. -/
theorem c10_initial_binding_stays_idle (s : Session) (data : String) (now : Int)
    (hdet : s.claudeDetected = false)
    (hind : containsClaudeIndicators data = true) :
    (updateClaudeDetection s data now).1.claudeDetected = true ∧
    (updateClaudeDetection s data now).1.claudeState = some "idle" ∧
    (updateClaudeDetection s data now).1.claudeSpinnerPhase = none ∧
    (updateClaudeDetection s data now).1.claudeLastStateChange = some now ∧
    (updateClaudeDetection s data now).1.claudeLastActivity = some now := by
  rw [updateClaudeDetection_of_initial s data now hdet hind]
  have hd0 : now - jsOrInt (boundSession s now).claudeLastStateChange
      < THRESHOLDS.stateDebounce := by
    simp [boundSession, jsOrInt, THRESHOLDS]
  have hru := detectClaudeState_shouldUpdate_false_of_debounce (boundSession s now) data now
    rfl hd0
  simp only [hru, Bool.false_eq_true, if_false]
  by_cases hl : 0 < data.length <;> simp [hl, boundSession]

/-- Witness for C10: the binding chunk `"⠋ Running Bash tool"` carries a
spinner glyph, yet the binding call leaves the session idle with no
recorded spinner phase. -/
theorem c10_witness :
    (updateClaudeDetection (initSession "term") "⠋ Running Bash tool" 7777).1.claudeDetected
        = true ∧
    (updateClaudeDetection (initSession "term") "⠋ Running Bash tool" 7777).1.claudeState
        = some "idle" ∧
    (updateClaudeDetection (initSession "term") "⠋ Running Bash tool" 7777).1.claudeSpinnerPhase
        = none ∧
    (updateClaudeDetection (initSession "term") "⠋ Running Bash tool" 7777).1.claudeLastStateChange
        = some 7777 ∧
    (updateClaudeDetection (initSession "term") "⠋ Running Bash tool" 7777).1.claudeLastActivity
        = some 7777 :=
  c10_initial_binding_stays_idle (initSession "term") "⠋ Running Bash tool" 7777
    (by decide) (by decide)

/-! ## Preservation lemmas for the pipeline steps -/

/-- Without prior detection and without indicators, `updateClaudeDetection`
is the identity. -/
lemma updateClaudeDetection_not_detected (s : Session) (data : String) (now : Int)
    (hdet : s.claudeDetected = false)
    (hind : containsClaudeIndicators data = false) :
    (updateClaudeDetection s data now).1 = s := by
  unfold updateClaudeDetection
  simp [hdet, hind]

/-- `updateClaudeDetection` writes only the Claude fields. -/
lemma updateClaudeDetection_preserves (s : Session) (data : String) (now : Int) :
    (updateClaudeDetection s data now).1.activityIntensity = s.activityIntensity ∧
    (updateClaudeDetection s data now).1.lastOutputType = s.lastOutputType ∧
    (updateClaudeDetection s data now).1.lastOutputTypeTime = s.lastOutputTypeTime := by
  cases hdet : s.claudeDetected with
  | true =>
    rw [updateClaudeDetection_of_detected s data now hdet]
    by_cases hru : (detectClaudeState s data now).shouldUpdate = true <;>
      by_cases hl : 0 < data.length <;> simp [hru, hl]
  | false =>
    cases hind : containsClaudeIndicators data with
    | true =>
      rw [updateClaudeDetection_of_initial s data now hdet hind]
      have hbp : (boundSession s now).activityIntensity = s.activityIntensity ∧
          (boundSession s now).lastOutputType = s.lastOutputType ∧
          (boundSession s now).lastOutputTypeTime = s.lastOutputTypeTime :=
        ⟨rfl, rfl, rfl⟩
      by_cases hru : (detectClaudeState (boundSession s now) data now).shouldUpdate = true <;>
        by_cases hl : 0 < data.length <;>
        simp [hru, hl, hbp.1, hbp.2.1, hbp.2.2]
    | false =>
      rw [updateClaudeDetection_not_detected s data now hdet hind]
      exact ⟨rfl, rfl, rfl⟩

/-- The Claude-detection step of `parseTerminalOutput` writes only the
Claude fields. -/
lemma applyClaudeDetection_preserves (en : Bool) (s : Session) (data : String) (now : Int) :
    (applyClaudeDetection en s data now).activityIntensity = s.activityIntensity ∧
    (applyClaudeDetection en s data now).lastOutputType = s.lastOutputType ∧
    (applyClaudeDetection en s data now).lastOutputTypeTime = s.lastOutputTypeTime := by
  have h := updateClaudeDetection_preserves s data now
  unfold applyClaudeDetection
  by_cases hen : en = true
  · simp only [hen, if_true]
    by_cases hleg : ((updateClaudeDetection s data now).1.claudeDetected = false ∧
        legacyClaudePattern data = true) <;>
      simp [hleg, h.1, h.2.1, h.2.2]
  · simp [hen]

/-- The output-type stamping step writes only `lastOutputType` and
`lastOutputTypeTime`. -/
lemma stampOutputType_preserves (s : Session) (data : String) (now : Int) :
    (stampOutputType s data now).activityIntensity = s.activityIntensity ∧
    (stampOutputType s data now).activityType = s.activityType ∧
    (stampOutputType s data now).outputBurstCount = s.outputBurstCount ∧
    (stampOutputType s data now).lastOutputTime = s.lastOutputTime ∧
    (stampOutputType s data now).lastOutput = s.lastOutput := by
  unfold stampOutputType
  split <;> simp

/-- The activity-classification step does not write the output-type
stamp. -/
lemma classifyActivity_preserves_outputType (act : Bool) (s : Session) (data : String)
    (now : Int) :
    (classifyActivity act s data now).lastOutputType = s.lastOutputType ∧
    (classifyActivity act s data now).lastOutputTypeTime = s.lastOutputTypeTime := by
  unfold classifyActivity
  dsimp only
  split <;> (repeat' split) <;> simp

/-- Sweeper step (a) writes only `hasActivity`. -/
lemma sweepHasActivity_preserves (cfg : SweepConfig) (now : Int) (s : Session) :
    (sweepHasActivity cfg now s).claudeDetected = s.claudeDetected ∧
    (sweepHasActivity cfg now s).claudeState = s.claudeState ∧
    (sweepHasActivity cfg now s).claudeLastActivity = s.claudeLastActivity ∧
    (sweepHasActivity cfg now s).claudeLastStateChange = s.claudeLastStateChange ∧
    (sweepHasActivity cfg now s).activityIntensity = s.activityIntensity ∧
    (sweepHasActivity cfg now s).lastOutputTime = s.lastOutputTime := by
  unfold sweepHasActivity
  split <;> try split
  all_goals simp

/-- Sweeper step (b) writes only `lastOutputType`. -/
lemma sweepOutputType_preserves (now : Int) (s : Session) :
    (sweepOutputType now s).claudeDetected = s.claudeDetected ∧
    (sweepOutputType now s).claudeState = s.claudeState ∧
    (sweepOutputType now s).claudeLastActivity = s.claudeLastActivity ∧
    (sweepOutputType now s).claudeLastStateChange = s.claudeLastStateChange ∧
    (sweepOutputType now s).activityIntensity = s.activityIntensity ∧
    (sweepOutputType now s).lastOutputTime = s.lastOutputTime := by
  unfold sweepOutputType
  split <;> try split
  all_goals simp

/-- Sweeper step (c) writes only the activity fields, never the Claude
fields. -/
lemma sweepDecay_preserves (now : Int) (s : Session) :
    (sweepDecay now s).claudeDetected = s.claudeDetected ∧
    (sweepDecay now s).claudeState = s.claudeState ∧
    (sweepDecay now s).claudeLastActivity = s.claudeLastActivity ∧
    (sweepDecay now s).claudeLastStateChange = s.claudeLastStateChange := by
  unfold sweepDecay
  dsimp only
  split <;> try split
  all_goals simp

/-- Sweeper step (d) leaves `claudeState` unchanged unless the session is a
detected one in state `working`, in which case it may only become
`waiting`; `claudeLastStateChange` is stamped exactly on that
transition. -/
lemma sweepClaude_state_cases (cfg : SweepConfig) (now : Int) (s : Session) :
    (sweepClaude cfg now s = s) ∨
    (s.claudeState = some "working" ∧
      (sweepClaude cfg now s).claudeState = some "waiting" ∧
      (sweepClaude cfg now s).claudeLastStateChange = some now) := by
  unfold sweepClaude
  split
  · split
    · next hcond _ =>
      exact Or.inr ⟨hcond.2, by simp, by simp⟩
    · exact Or.inl rfl
  · exact Or.inl rfl

/-! ## Lemmas about the sweeper's Claude transition -/

/-- When a detected session is `working` and the Claude idle timeout has
elapsed, sweeper step (d) forces `waiting` and stamps the change. -/
lemma sweepClaude_fires (cfg : SweepConfig) (now : Int) (s : Session)
    (h1 : s.claudeDetected = true) (h2 : s.claudeState = some "working")
    (h3 : gtInf (timeSinceOr now s.claudeLastActivity) (effClaudeIdleTimeout cfg) = true) :
    sweepClaude cfg now s
      = { s with claudeState := some "waiting", claudeLastStateChange := some now } := by
  unfold sweepClaude
  rw [if_pos ⟨h1, h2⟩, if_pos h3]

/-- Sweeper step (d) is the identity on sessions not in state `working`. -/
lemma sweepClaude_no_fire_of_not_working (cfg : SweepConfig) (now : Int) (s : Session)
    (h : s.claudeState ≠ some "working") :
    sweepClaude cfg now s = s := by
  unfold sweepClaude
  rw [if_neg (fun hc => h hc.2)]

/-- The composition of sweeper steps (a)–(c) preserves all Claude
fields. -/
lemma sweepPrefix_preserves (cfg : SweepConfig) (now : Int) (s : Session) :
    (sweepDecay now (sweepOutputType now (sweepHasActivity cfg now s))).claudeDetected
        = s.claudeDetected ∧
    (sweepDecay now (sweepOutputType now (sweepHasActivity cfg now s))).claudeState
        = s.claudeState ∧
    (sweepDecay now (sweepOutputType now (sweepHasActivity cfg now s))).claudeLastActivity
        = s.claudeLastActivity ∧
    (sweepDecay now (sweepOutputType now (sweepHasActivity cfg now s))).claudeLastStateChange
        = s.claudeLastStateChange := by
  have hp := sweepHasActivity_preserves cfg now s
  have hq := sweepOutputType_preserves now (sweepHasActivity cfg now s)
  have hr := sweepDecay_preserves now (sweepOutputType now (sweepHasActivity cfg now s))
  exact ⟨by rw [hr.1, hq.1, hp.1], by rw [hr.2.1, hq.2.1, hp.2.1],
    by rw [hr.2.2.1, hq.2.2.1, hp.2.2.1], by rw [hr.2.2.2, hq.2.2.2.1, hp.2.2.2.1]⟩

/-- A sweeper pass either leaves `claudeState` unchanged or sets it to
`waiting`; it never produces `idle`. -/
lemma clearOldActivity_state_cases (cfg : SweepConfig) (now : Int) (s : Session) :
    (clearOldActivitySession cfg now s).claudeState = s.claudeState ∨
    (clearOldActivitySession cfg now s).claudeState = some "waiting" := by
  have hpre := sweepPrefix_preserves cfg now s
  unfold clearOldActivitySession
  rcases sweepClaude_state_cases cfg now
      (sweepDecay now (sweepOutputType now (sweepHasActivity cfg now s))) with h | h
  · left
    rw [h, hpre.2.1]
  · right
    exact h.2.1

/-! ## Claim C4 (corrected): the sweeper's only transition is
`working → waiting`; it never drives a session to `idle` -/

/-- Counterexample to C4 as stated.  A bound session in state `waiting`
that has been silent for 39 999 ms — far beyond `idleTimeout = 30000` —
is left in state `waiting` (not `idle`) by a Decay Sweeper pass at
`now = 40000`. -/
def c4Session : Session :=
  { initSession "term" with
    claudeDetected := true, claudeState := some "waiting",
    claudeLastActivity := some 1, claudeLastStateChange := some 1 }

/-- C4 counterexample: despite silence exceeding `idleTimeout`, the sweeper
pass leaves `claudeState = waiting`; it does not transition to `idle`. -/
theorem c4_counterexample :
    40000 - 1 > THRESHOLDS.idleTimeout ∧
    (clearOldActivitySession defaultSweepConfig 40000 c4Session).claudeState
        = some "waiting" ∧
    (clearOldActivitySession defaultSweepConfig 40000 c4Session).claudeState
        ≠ some "idle" := by
  have hpre := sweepPrefix_preserves defaultSweepConfig 40000 c4Session
  have hstate :
      (sweepDecay 40000 (sweepOutputType 40000
        (sweepHasActivity defaultSweepConfig 40000 c4Session))).claudeState
        = some "waiting" := by
    rw [hpre.2.1]
    rfl
  have hnf := sweepClaude_no_fire_of_not_working defaultSweepConfig 40000
    (sweepDecay 40000 (sweepOutputType 40000
      (sweepHasActivity defaultSweepConfig 40000 c4Session)))
    (by rw [hstate]; simp)
  have hres : (clearOldActivitySession defaultSweepConfig 40000 c4Session).claudeState
      = some "waiting" := by
    unfold clearOldActivitySession
    rw [hnf, hstate]
  exact ⟨by decide, hres, by rw [hres]; simp⟩

/-- C4 (amended).  For a bound session in state `working` whose silence
exceeds the sweeper's `claudeIdleTimeout` (default 5000 ms — not
`idleTimeout`), a sweeper pass transitions `working → waiting` and stamps
`claudeLastStateChange := now`; the transition happens exactly once (any
later chunk-free pass leaves both fields unchanged); and no sweeper pass
ever sets `claudeState` to `idle` — the `idle` transition exists only in
the chunk-driven `detectClaudeState`. -/
theorem c4_sweeper_working_to_waiting_once (cfg : SweepConfig) (s : Session) (now t' : Int)
    (hdet : s.claudeDetected = true)
    (hw : s.claudeState = some "working")
    (hsil : gtInf (timeSinceOr now s.claudeLastActivity) (effClaudeIdleTimeout cfg) = true) :
    (clearOldActivitySession cfg now s).claudeState = some "waiting" ∧
    (clearOldActivitySession cfg now s).claudeLastStateChange = some now ∧
    (clearOldActivitySession cfg t' (clearOldActivitySession cfg now s)).claudeState
        = some "waiting" ∧
    (clearOldActivitySession cfg t' (clearOldActivitySession cfg now s)).claudeLastStateChange
        = some now ∧
    (∀ (s₂ : Session) (n₂ : Int), s₂.claudeState ≠ some "idle" →
      (clearOldActivitySession cfg n₂ s₂).claudeState ≠ some "idle") := by
  have hpre := sweepPrefix_preserves cfg now s
  have hfire := sweepClaude_fires cfg now
    (sweepDecay now (sweepOutputType now (sweepHasActivity cfg now s)))
    (by rw [hpre.1]; exact hdet) (by rw [hpre.2.1]; exact hw)
    (by rw [hpre.2.2.1]; exact hsil)
  have hres1 : (clearOldActivitySession cfg now s).claudeState = some "waiting" := by
    unfold clearOldActivitySession
    rw [hfire]
  have hres2 : (clearOldActivitySession cfg now s).claudeLastStateChange = some now := by
    unfold clearOldActivitySession
    rw [hfire]
  have hpre' := sweepPrefix_preserves cfg t' (clearOldActivitySession cfg now s)
  have hnf := sweepClaude_no_fire_of_not_working cfg t'
    (sweepDecay t' (sweepOutputType t' (sweepHasActivity cfg t'
      (clearOldActivitySession cfg now s))))
    (by rw [hpre'.2.1, hres1]; simp)
  have hres3 : (clearOldActivitySession cfg t' (clearOldActivitySession cfg now s)).claudeState
      = some "waiting" := by
    conv_lhs => rw [clearOldActivitySession]
    rw [hnf, hpre'.2.1, hres1]
  have hres4 :
      (clearOldActivitySession cfg t' (clearOldActivitySession cfg now s)).claudeLastStateChange
        = some now := by
    conv_lhs => rw [clearOldActivitySession]
    rw [hnf, hpre'.2.2.2, hres2]
  refine ⟨hres1, hres2, hres3, hres4, ?_⟩
  intro s₂ n₂ hne
  rcases clearOldActivity_state_cases cfg n₂ s₂ with h | h
  · rw [h]
    exact hne
  · rw [h]
    simp

/-- A concrete `working` session silent since `t = 1`, used by the C4
witness. -/
def c4WorkSession : Session := { c4Session with claudeState := some "working" }

/-- Witness for the amended C4: at `now = 40000` the sweeper moves the
working session to `waiting` exactly once, and a later pass at
`t' = 41000` changes nothing. -/
theorem c4_witness :
    (clearOldActivitySession defaultSweepConfig 40000 c4WorkSession).claudeState
        = some "waiting" ∧
    (clearOldActivitySession defaultSweepConfig 40000 c4WorkSession).claudeLastStateChange
        = some 40000 ∧
    (clearOldActivitySession defaultSweepConfig 41000
        (clearOldActivitySession defaultSweepConfig 40000 c4WorkSession)).claudeState
        = some "waiting" ∧
    (clearOldActivitySession defaultSweepConfig 41000
        (clearOldActivitySession defaultSweepConfig 40000 c4WorkSession)).claudeLastStateChange
        = some 40000 ∧
    (∀ (s₂ : Session) (n₂ : Int), s₂.claudeState ≠ some "idle" →
      (clearOldActivitySession defaultSweepConfig n₂ s₂).claudeState ≠ some "idle") :=
  c4_sweeper_working_to_waiting_once defaultSweepConfig c4WorkSession 40000 41000
    (by decide) (by decide) (by decide)

/-! ## Characterization of the substring matcher -/

/-- `restAfterCS` succeeds exactly on inputs that start with the pattern,
returning the remainder. -/
lemma restAfterCS_eq_some_iff {p s r : List Char} :
    restAfterCS p s = some r ↔ s = p ++ r := by
  induction p generalizing s with
  | nil => simp [restAfterCS]
  | cons x xs ih =>
    cases s with
    | nil => simp [restAfterCS]
    | cons c cs =>
      by_cases hx : x = c
      · subst hx
        simp only [restAfterCS, if_pos rfl, List.cons_append, List.cons.injEq, true_and]
        exact ih
      · simp only [restAfterCS, if_neg hx, List.cons_append, List.cons.injEq]
        constructor
        · intro h
          exact Option.noConfusion h
        · rintro ⟨h1, _⟩
          exact absurd h1.symm hx

/-- `scanAny` succeeds exactly when the test succeeds at some split of the
input. -/
lemma scanAny_eq_true_iff {t : List Char → Bool} {l : List Char} :
    scanAny t l = true ↔ ∃ l₁ l₂, l = l₁ ++ l₂ ∧ t l₂ = true := by
  induction l with
  | nil =>
    constructor
    · intro h
      exact ⟨[], [], rfl, h⟩
    · rintro ⟨l₁, l₂, hl, ht⟩
      rcases List.append_eq_nil.mp hl.symm with ⟨rfl, rfl⟩
      exact ht
  | cons c cs ih =>
    simp only [scanAny, Bool.or_eq_true, ih]
    constructor
    · rintro (h | ⟨l₁, l₂, rfl, ht⟩)
      · exact ⟨[], c :: cs, rfl, h⟩
      · exact ⟨c :: l₁, l₂, rfl, ht⟩
    · rintro ⟨l₁, l₂, hl, ht⟩
      cases l₁ with
      | nil =>
        left
        rw [List.nil_append] at hl
        rw [hl]
        exact ht
      | cons a as =>
        right
        rw [List.cons_append] at hl
        injection hl with h1 h2
        exact ⟨as, l₂, h2, ht⟩

/-- `containsCS` (JS `String.prototype.includes` / a literal regex) is the
list-infix relation on the underlying characters. -/
lemma containsCS_iff {p s : String} : containsCS p s = true ↔ p.data <:+: s.data := by
  unfold containsCS
  rw [scanAny_eq_true_iff]
  constructor
  · rintro ⟨l₁, l₂, hl, ht⟩
    rcases Option.isSome_iff_exists.mp ht with ⟨r, hr⟩
    rw [restAfterCS_eq_some_iff] at hr
    exact ⟨l₁, r, by rw [hl, hr]; simp [List.append_assoc]⟩
  · rintro ⟨u, v, huv⟩
    refine ⟨u, p.data ++ v, by rw [← huv]; simp [List.append_assoc], ?_⟩
    have hr : restAfterCS p.data (p.data ++ v) = some v := restAfterCS_eq_some_iff.mpr rfl
    rw [hr]
    rfl

/-- A hit of `detectOutputType` on a long-enough chunk stamps the session's
output-type fields. -/
lemma stampOutputType_stamps (s : Session) (data : String) (now : Int) (t : String)
    (hlen : 5 < data.length) (ht : detectOutputType data = some t) :
    (stampOutputType s data now).lastOutputType = some t ∧
    (stampOutputType s data now).lastOutputTypeTime = some now := by
  unfold stampOutputType
  rw [if_pos hlen, ht]
  exact ⟨rfl, rfl⟩

/-! ## Claim C7: ordered output-type classification with timestamping -/

/-- C7.  For chunks longer than 5 characters: any classification result is
stamped into `lastOutputType` with `lastOutputTypeTime = now` by
`parseTerminalOutput`; the categories are tested in the fixed order error,
warning, success, progress, and the first category with any matching
pattern wins; in particular any chunk containing
`"\x1b[31mError: build failed\x1b[0m"` (which contains the red-ANSI error
pattern `\x1b[31m`) classifies as `error`. -/
theorem c7_first_output_category_wins (en act : Bool) (s : Session) (data : String)
    (now : Int) (hlen : 5 < data.length) :
    (∀ t, detectOutputType data = some t →
      (parseTerminalOutput en act s data now).lastOutputType = some t ∧
      (parseTerminalOutput en act s data now).lastOutputTypeTime = some now) ∧
    (errorPatterns.any (fun p => p data) = true → detectOutputType data = some "error") ∧
    (errorPatterns.any (fun p => p data) = false →
      warningPatterns.any (fun p => p data) = true →
      detectOutputType data = some "warning") ∧
    (errorPatterns.any (fun p => p data) = false →
      warningPatterns.any (fun p => p data) = false →
      successPatterns.any (fun p => p data) = true →
      detectOutputType data = some "success") ∧
    (errorPatterns.any (fun p => p data) = false →
      warningPatterns.any (fun p => p data) = false →
      successPatterns.any (fun p => p data) = false →
      progressPatterns.any (fun p => p data) = true →
      detectOutputType data = some "progress") ∧
    (containsCS "\x1b[31mError: build failed\x1b[0m" data = true →
      detectOutputType data = some "error") := by
  refine ⟨?_, ?_, ?_, ?_, ?_, ?_⟩
  · intro t ht
    have h1 := stampOutputType_stamps { s with lastOutput := data } data now t hlen ht
    have h2 := classifyActivity_preserves_outputType act
      (stampOutputType { s with lastOutput := data } data now) data now
    have h3 := applyClaudeDetection_preserves en
      (classifyActivity act (stampOutputType { s with lastOutput := data } data now) data now)
      data now
    unfold parseTerminalOutput
    exact ⟨by rw [h3.2.1, h2.1, h1.1], by rw [h3.2.2, h2.2, h1.2]⟩
  · intro herr
    simp [detectOutputType, OUTPUT_PATTERNS, herr]
  · intro herr hwarn
    simp [detectOutputType, OUTPUT_PATTERNS, herr, hwarn]
  · intro herr hwarn hsucc
    simp [detectOutputType, OUTPUT_PATTERNS, herr, hwarn, hsucc]
  · intro herr hwarn hsucc hprog
    simp [detectOutputType, OUTPUT_PATTERNS, herr, hwarn, hsucc, hprog]
  · intro hsub
    have hesc : containsCS "\x1b[31m" data = true := by
      rw [containsCS_iff]
      have h1 : ("\x1b[31m" : String).data
          <:+: ("\x1b[31mError: build failed\x1b[0m" : String).data := by
        rw [← containsCS_iff]
        decide
      exact h1.trans (containsCS_iff.mp hsub)
    have hany : errorPatterns.any (fun p => p data) = true := by
      simp [errorPatterns, hesc]
    simp [detectOutputType, OUTPUT_PATTERNS, hany]

/-- Witness for C7: the exact example chunk stamps `lastOutputType = error`
at the processing time. -/
theorem c7_witness :
    (parseTerminalOutput true true (initSession "term")
        "\x1b[31mError: build failed\x1b[0m" 500).lastOutputType = some "error" ∧
    (parseTerminalOutput true true (initSession "term")
        "\x1b[31mError: build failed\x1b[0m" 500).lastOutputTypeTime = some 500 := by
  have h := c7_first_output_category_wins true true (initSession "term")
    "\x1b[31mError: build failed\x1b[0m" 500 (by decide)
  exact h.1 "error" (h.2.2.2.2.2 (by decide))

/-! ## Lemmas about `activityIntensity` -/

/-- On a short non-empty chunk (keystroke echo), the classification step
sets the typing intensity `max 10 (intensity × 0.95)`. -/
lemma classifyActivity_typing (act : Bool) (s : Session) (data : String) (now : Int)
    (h5 : ¬ 5 < data.length) (h0 : 0 < data.length) :
    (classifyActivity act s data now).activityIntensity
      = max 10 (s.activityIntensity * (19 / 20 : ℚ)) := by
  unfold classifyActivity
  dsimp only
  rw [if_neg h5, if_pos h0]

/-- On a short non-empty chunk, `parseTerminalOutput` leaves exactly the
typing intensity. -/
lemma parseTerminalOutput_typing_intensity (en act : Bool) (s : Session) (data : String)
    (now : Int) (h5 : ¬ 5 < data.length) (h0 : 0 < data.length) :
    (parseTerminalOutput en act s data now).activityIntensity
      = max 10 (s.activityIntensity * (19 / 20 : ℚ)) := by
  unfold parseTerminalOutput
  rw [(applyClaudeDetection_preserves en
      (classifyActivity act (stampOutputType { s with lastOutput := data } data now) data now)
      data now).1,
    classifyActivity_typing act _ data now h5 h0,
    (stampOutputType_preserves { s with lastOutput := data } data now).1]

/-- Bounds for the classification step: intensity stays within `[0, 100]`. -/
lemma classifyActivity_intensity_bounds (act : Bool) (s : Session) (data : String)
    (now : Int) (h0 : 0 ≤ s.activityIntensity) (h100 : s.activityIntensity ≤ 100) :
    0 ≤ (classifyActivity act s data now).activityIntensity ∧
    (classifyActivity act s data now).activityIntensity ≤ 100 := by
  by_cases h5 : 5 < data.length
  · by_cases hb : ltInf (timeSinceOr now s.lastOutputTime) BURST_THRESHOLD = true
    · have hval : (classifyActivity act s data now).activityIntensity
          = min (((min (s.outputBurstCount + 1) 100 : ℕ) : ℚ) * 4) 100 := by
        unfold classifyActivity
        dsimp only
        rw [if_pos h5, if_pos hb]
        by_cases hact : act = false <;> simp [hact]
      rw [hval]
      constructor
      · exact le_min (by positivity) (by norm_num)
      · exact min_le_right _ _
    · by_cases h1k : ltInf (timeSinceOr now s.lastOutputTime) 1000 = true
      · have hval : (classifyActivity act s data now).activityIntensity
            = min 50 (s.activityIntensity + 10) := by
          unfold classifyActivity
          dsimp only
          rw [if_pos h5, if_neg hb, if_pos h1k]
          by_cases hact : act = false <;> simp [hact]
        rw [hval]
        constructor
        · exact le_min (by norm_num) (by linarith)
        · exact le_trans (min_le_left _ _) (by norm_num)
      · have hval : (classifyActivity act s data now).activityIntensity = 35 := by
          unfold classifyActivity
          dsimp only
          rw [if_pos h5, if_neg hb, if_neg h1k]
          by_cases hact : act = false <;> simp [hact]
        rw [hval]
        constructor <;> norm_num
  · by_cases hlen : 0 < data.length
    · rw [classifyActivity_typing act s data now h5 hlen]
      constructor
      · exact le_trans (by norm_num) (le_max_left _ _)
      · refine max_le (by norm_num) (by linarith)
    · have hval : (classifyActivity act s data now).activityIntensity
          = s.activityIntensity := by
        unfold classifyActivity
        dsimp only
        rw [if_neg h5, if_neg hlen]
      rw [hval]
      exact ⟨h0, h100⟩

/-- Bounds for the decay step: intensity stays within `[0, 100]`. -/
lemma sweepDecay_intensity_bounds (now : Int) (s : Session)
    (h0 : 0 ≤ s.activityIntensity) (h100 : s.activityIntensity ≤ 100) :
    0 ≤ (sweepDecay now s).activityIntensity ∧
    (sweepDecay now s).activityIntensity ≤ 100 := by
  unfold sweepDecay
  dsimp only
  split
  · split
    · constructor <;> simp
    · constructor
      · simpa using le_max_left 0 (s.activityIntensity * (17 / 20 : ℚ))
      · have hx : s.activityIntensity * (17 / 20 : ℚ) ≤ 100 := by linarith
        simpa using max_le (show (0 : ℚ) ≤ 100 by norm_num) hx
  · exact ⟨h0, h100⟩

/-- The Claude sweeper step does not write `activityIntensity`. -/
lemma sweepClaude_preserves_intensity (cfg : SweepConfig) (now : Int) (s : Session) :
    (sweepClaude cfg now s).activityIntensity = s.activityIntensity := by
  unfold sweepClaude
  split <;> try split
  all_goals simp

/-! ## Claim C9 (corrected): intensity is a rational in `[0, 100]`, not an
integer -/

/-- C9 counterexample: starting from a fresh session, a long chunk sets
intensity 35 and a following 3-character chunk (`"ls\n"`) applies the
typing decay `max 10 (35 × 0.95) = 33.25` — a value in range but NOT an
integer, refuting the claimed integrality. -/
theorem c9_counterexample :
    (parseTerminalOutput true true
        (parseTerminalOutput true true (initSession "term") "build output" 10000)
        "ls\n" 12000).activityIntensity = 133 / 4 ∧
    ¬ ∃ n : ℤ, (parseTerminalOutput true true
        (parseTerminalOutput true true (initSession "term") "build output" 10000)
        "ls\n" 12000).activityIntensity = (n : ℚ) := by
  have h35 : (parseTerminalOutput true true (initSession "term")
      "build output" 10000).activityIntensity = 35 := rfl
  have hty := parseTerminalOutput_typing_intensity true true
    (parseTerminalOutput true true (initSession "term") "build output" 10000) "ls\n" 12000
    (by decide) (by decide)
  rw [hty, h35]
  have hval : max (10 : ℚ) (35 * (19 / 20)) = 133 / 4 := by
    rw [max_eq_right (by norm_num)]
    norm_num
  rw [hval]
  refine ⟨rfl, ?_⟩
  rintro ⟨n, hn⟩
  have h4 : (133 : ℚ) = 4 * (n : ℚ) := by
    rw [← hn]
    norm_num
  have h4i : (133 : ℤ) = 4 * n := by exact_mod_cast h4
  omega

/-- C9 (amended).  `activityIntensity` is a rational number (not an
integer: the ×0.95 and ×0.85 decays produce fractional values) that stays
in the range `[0, 100]` across every write: after activity classification
of any chunk, after every Decay Sweeper pass, and it starts at 0. -/
theorem c9_intensity_rational_in_range (en act : Bool) (cfg : SweepConfig) (s : Session)
    (data title : String) (now now₂ : Int)
    (h0 : 0 ≤ s.activityIntensity) (h100 : s.activityIntensity ≤ 100) :
    (0 ≤ (parseTerminalOutput en act s data now).activityIntensity ∧
      (parseTerminalOutput en act s data now).activityIntensity ≤ 100) ∧
    (0 ≤ (clearOldActivitySession cfg now₂ s).activityIntensity ∧
      (clearOldActivitySession cfg now₂ s).activityIntensity ≤ 100) ∧
    (initSession title).activityIntensity = 0 := by
  refine ⟨?_, ?_, rfl⟩
  · have hstamp := (stampOutputType_preserves { s with lastOutput := data } data now).1
    have hbase0 : 0 ≤ (stampOutputType { s with lastOutput := data } data now).activityIntensity := by
      rw [hstamp]
      exact h0
    have hbase100 : (stampOutputType { s with lastOutput := data } data now).activityIntensity
        ≤ 100 := by
      rw [hstamp]
      exact h100
    have hcls := classifyActivity_intensity_bounds act
      (stampOutputType { s with lastOutput := data } data now) data now hbase0 hbase100
    have happ := (applyClaudeDetection_preserves en
      (classifyActivity act (stampOutputType { s with lastOutput := data } data now) data now)
      data now).1
    unfold parseTerminalOutput
    rw [happ]
    exact hcls
  · have hp := (sweepHasActivity_preserves cfg now₂ s).2.2.2.2.1
    have hq := (sweepOutputType_preserves now₂ (sweepHasActivity cfg now₂ s)).2.2.2.2.1
    have h0' : 0 ≤ (sweepOutputType now₂ (sweepHasActivity cfg now₂ s)).activityIntensity := by
      rw [hq, hp]
      exact h0
    have h100' : (sweepOutputType now₂ (sweepHasActivity cfg now₂ s)).activityIntensity
        ≤ 100 := by
      rw [hq, hp]
      exact h100
    have hdec := sweepDecay_intensity_bounds now₂
      (sweepOutputType now₂ (sweepHasActivity cfg now₂ s)) h0' h100'
    have hcl := sweepClaude_preserves_intensity cfg now₂
      (sweepDecay now₂ (sweepOutputType now₂ (sweepHasActivity cfg now₂ s)))
    unfold clearOldActivitySession
    rw [hcl]
    exact hdec

/-- Witness for the amended C9: intensity bounds applied at a concrete
fresh session. -/
theorem c9_witness :
    (0 ≤ (parseTerminalOutput true true (initSession "term") "build output"
        10000).activityIntensity ∧
      (parseTerminalOutput true true (initSession "term") "build output"
        10000).activityIntensity ≤ 100) ∧
    (0 ≤ (clearOldActivitySession defaultSweepConfig 10000
        (initSession "term")).activityIntensity ∧
      (clearOldActivitySession defaultSweepConfig 10000
        (initSession "term")).activityIntensity ≤ 100) ∧
    (initSession "term").activityIntensity = 0 :=
  c9_intensity_rational_in_range true true defaultSweepConfig (initSession "term")
    "build output" "term" 10000 10000 (by norm_num [initSession]) (by norm_num [initSession])
